import Mathlib

set_option maxRecDepth 4000

namespace KeyboardMappingUtil

/-- The `ZONE_TO_KEY` dictionary from `keyboard_mapping_util.py`, embedded as an
association list in the source's insertion order (Python dicts preserve
insertion order, which the report routine relies on). -/
def ZONE_TO_KEY : List (Int × String) := [
  (0, "Left Ctrl"),
  (1, "Unused/Unknown"),
  (2, "Fn"),
  (3, "Left Windows"),
  (4, "Left Alt"),
  (5, "Unused/Unknown"),
  (6, "Unused/Unknown"),
  (7, "Space"),
  (8, "Unused/Unknown"),
  (9, "Unused/Unknown"),
  (10, "Right Alt"),
  (11, "Unused/Unknown"),
  (12, "Right Ctrl"),
  (13, "Left Arrow"),
  (14, "Up Arrow"),
  (15, "Right Arrow"),
  (16, "Numpad 0"),
  (17, "Numpad ,"),
  (18, "Down Arrow"),
  (19, "Unused/Unknown"),
  (20, "Unused/Unknown"),
  (21, "Unused/Unknown"),
  (22, "Left Shift"),
  (23, "<"),
  (24, "y"),
  (25, "x"),
  (26, "c"),
  (27, "v"),
  (28, "b"),
  (29, "n"),
  (30, "m"),
  (31, ","),
  (32, "."),
  (33, "-"),
  (34, "Unused/Unknown"),
  (35, "Right Shift"),
  (36, "Numpad 1"),
  (37, "Numpad 2"),
  (38, "Numpad 3"),
  (39, "Numpad Enter"),
  (40, "Unused/Unknown"),
  (41, "Unused/Unknown"),
  (42, "Caps Lock"),
  (43, "Unused/Unknown"),
  (44, "a"),
  (45, "s"),
  (46, "d"),
  (47, "f"),
  (48, "g"),
  (49, "h"),
  (50, "j"),
  (51, "k"),
  (52, "l"),
  (53, "ö"),
  (54, "ä"),
  (55, "#"),
  (56, "Unused/Unknown"),
  (57, "Numpad 4"),
  (58, "Numpad 5"),
  (59, "Numpad 6"),
  (60, "Unused/Unknown"),
  (61, "Unused/Unknown"),
  (62, "Unused/Unknown"),
  (63, "Tab"),
  (64, "Unused/Unknown"),
  (65, "q"),
  (66, "w"),
  (67, "e"),
  (68, "r"),
  (69, "t"),
  (70, "z"),
  (71, "u"),
  (72, "i"),
  (73, "o"),
  (74, "p"),
  (75, "ü"),
  (76, "+"),
  (77, "Enter"),
  (78, "Numpad 7"),
  (79, "Numpad 8"),
  (80, "Numpad 9"),
  (81, "Numpad +"),
  (82, "Unused/Unknown"),
  (83, "Unused/Unknown"),
  (84, "^"),
  (85, "1"),
  (86, "2"),
  (87, "3"),
  (88, "4"),
  (89, "5"),
  (90, "6"),
  (91, "7"),
  (92, "8"),
  (93, "9"),
  (94, "0"),
  (95, "ß"),
  (96, "\x27"),
  (97, "Unused/Unknown"),
  (98, "Backspace"),
  (99, "Num Lock"),
  (100, "Numpad /"),
  (101, "Numpad *"),
  (102, "Numpad -"),
  (103, "Unused/Unknown"),
  (104, "Unused/Unknown"),
  (105, "Esc"),
  (106, "F1"),
  (107, "F2"),
  (108, "F3"),
  (109, "F4"),
  (110, "F5"),
  (111, "F6"),
  (112, "F7"),
  (113, "F8"),
  (114, "F9"),
  (115, "F10"),
  (116, "F11"),
  (117, "F12"),
  (118, "Print Screen"),
  (119, "Insert"),
  (120, "Delete"),
  (121, "Home"),
  (122, "End"),
  (123, "Page Up"),
  (124, "Page Down"),
  (125, "Unused/Unknown")]

/-- Python's `dict.get(k, default)`: first binding of `k` in the association
list, or the default when `k` is absent. -/
def dictGet (d : List (Int × String)) (k : Int) (dflt : String) : String :=
  match d.lookup k with
  | some v => v
  | none => dflt

/-- `get_key_label`, generalized over the table it reads (the Python function
reads the module-level global `ZONE_TO_KEY`). -/
def get_key_label_in (tbl : List (Int × String)) (zone_id : Int) : String :=
  dictGet tbl zone_id ("Zone " ++ toString zone_id)

/-- `get_key_label(zone_id)`: the label for `zone_id`, or the fallback
`"Zone " + zone_id` when the id is unmapped. -/
def get_key_label (zone_id : Int) : String :=
  get_key_label_in ZONE_TO_KEY zone_id

/-- The `code_lines` list built by `generate_keyboard_layout_code`: two lines
per zone in `range(18)`, generalized over the table. -/
def generate_code_lines_in (tbl : List (Int × String)) : List String :=
  (List.range 18).flatMap fun zone =>
    ["  zoneId = currentZone++;",
     "  createKeyButton( zoneId, \"" ++ get_key_label_in tbl (zone : Int) ++ "\", row, col );"]

/-- The `code_lines` list of `generate_keyboard_layout_code` over the global
table. -/
def generate_code_lines : List String :=
  generate_code_lines_in ZONE_TO_KEY

/-- `generate_keyboard_layout_code`, generalized over the table: the code
lines joined with newline separators. -/
def generate_keyboard_layout_code_in (tbl : List (Int × String)) : String :=
  String.intercalate "\n" (generate_code_lines_in tbl)

/-- `generate_keyboard_layout_code()`: the generated text block. -/
def generate_keyboard_layout_code : String :=
  generate_keyboard_layout_code_in ZONE_TO_KEY

/-- Python's substring test `needle in hay` on strings. -/
def strContains (hay needle : String) : Bool :=
  hay.data.tails.any fun t => needle.data.isPrefixOf t

/-- The lines printed by the `__main__` report routine, in order. The
`print(f"\nTotal ...")` call emits a blank line before its text, modelled as
the empty line preceding the total-count line. -/
def report_lines : List String :=
  ["Tuxedo Keyboard Zone Mappings (German QWERTZ Layout):",
   "Note: Y and Z positions are swapped compared to US QWERTY",
   ""]
  ++ ZONE_TO_KEY.map (fun p => "  Zone " ++ toString p.1 ++ ": " ++ p.2)
  ++ ["",
      "Total mapped zones: " ++ toString ZONE_TO_KEY.length,
      "Unused zones: " ++ toString (ZONE_TO_KEY.countP fun p => strContains p.2 "Unused")]

/-- A call to `get_key_label` with the table threaded through explicitly: the
Python function only reads the global dictionary, so the call returns its
result together with the (unchanged) table it observed. -/
def get_key_label_call (tbl : List (Int × String)) (zone_id : Int) :
    String × List (Int × String) :=
  (get_key_label_in tbl zone_id, tbl)

/-- A call to `generate_keyboard_layout_code` with the table threaded through
explicitly. -/
def generate_keyboard_layout_code_call (tbl : List (Int × String)) :
    String × List (Int × String) :=
  (generate_keyboard_layout_code_in tbl, tbl)

theorem lookup_eq_none_of_not_mem_keys (k : Int) (l : List (Int × String))
    (h : k ∉ l.map Prod.fst) : l.lookup k = none := by
  induction l with
  | nil => rfl
  | cons p t ih =>
    obtain ⟨a, b⟩ := p
    simp only [List.map_cons, List.mem_cons] at h
    push_neg at h
    have hne : (k == a) = false := by simpa using h.1
    simp [List.lookup, hne, ih h.2]

/-- Claim C1: for every entry of the Zone Table, `get_key_label` applied
to the entry's zone id returns exactly the stored label; in particular
`get_key_label 70 = "z"` and `get_key_label 53 = "ö"`. -/
theorem c1_lookup_returns_stored_label :
    (∀ p ∈ ZONE_TO_KEY, get_key_label p.1 = p.2) ∧
    get_key_label 70 = "z" ∧ get_key_label 53 = "ö" :=
  ⟨by decide, by decide, by decide⟩

/-- Witness for C1 at the concrete entry `(70, "z")`. -/
theorem c1_witness :
    (70, "z") ∈ ZONE_TO_KEY ∧ get_key_label 70 = "z" :=
  ⟨by decide, c1_lookup_returns_stored_label.1 (70, "z") (by decide)⟩

/-- Claim C2: for every integer zone id absent from the Zone Table,
`get_key_label` returns (raising nothing, being a total function) the text
`"Zone "` followed by the decimal representation of the id. -/
theorem c2_fallback_label (z : Int) (h : z ∉ ZONE_TO_KEY.map Prod.fst) :
    get_key_label z = "Zone " ++ toString z := by
  unfold get_key_label get_key_label_in dictGet
  rw [lookup_eq_none_of_not_mem_keys z ZONE_TO_KEY h]

/-- Witness for C2 at the concrete absent ids 999, -1 and 126. -/
theorem c2_witness :
    ((999 : Int) ∉ ZONE_TO_KEY.map Prod.fst ∧
      get_key_label 999 = "Zone 999") ∧
    ((-1 : Int) ∉ ZONE_TO_KEY.map Prod.fst ∧
      get_key_label (-1) = "Zone -1") ∧
    ((126 : Int) ∉ ZONE_TO_KEY.map Prod.fst ∧
      get_key_label 126 = "Zone 126") :=
  ⟨⟨by decide, c2_fallback_label 999 (by decide)⟩,
   ⟨by decide, c2_fallback_label (-1) (by decide)⟩,
   ⟨by decide, c2_fallback_label 126 (by decide)⟩⟩

/-- Counterexample to claim C3 as stated: the second line of the generated
text does NOT contain `createKeyButton( 0, "Left Ctrl", row, col );` — the
zone-id argument is emitted as the identifier `zoneId`, not the number 0. -/
theorem c3_counterexample :
    strContains ((generate_keyboard_layout_code.split fun c => c == '\n').getD 1 "")
      "createKeyButton( 0, \"Left Ctrl\", row, col );" = false := by
  rw [String.split_of_valid]
  decide

/-- Claim C3 (amended): the first line of the generated text contains
`zoneId = currentZone++;` and the second line contains
`createKeyButton( zoneId, "Left Ctrl", row, col );` (the identifier `zoneId`
and the quoted label of zone 0). -/
theorem c3_first_two_lines :
    strContains ((generate_keyboard_layout_code.split fun c => c == '\n').getD 0 "")
      "zoneId = currentZone++;" = true ∧
    strContains ((generate_keyboard_layout_code.split fun c => c == '\n').getD 1 "")
      "createKeyButton( zoneId, \"Left Ctrl\", row, col );" = true := by
  constructor <;> (rw [String.split_of_valid]; decide)

/-- Claim C4: the generated text, split on newline, is exactly the 36 lines
obtained by emitting, for each zone of `[0, 18)` in ascending order, one
zone-id-advance line and one creation-call line quoting `get_key_label` of
the zone (zone 7 embeds "Space", zone 10 embeds "Right Alt"); the bound of
18 zones (hence 36 lines) holds for every table, so it is independent of the
table's size. -/
theorem c4_exactly_36_lines :
    (generate_keyboard_layout_code.split fun c => c == '\n') =
      ((List.range 18).flatMap fun zone =>
        ["  zoneId = currentZone++;",
         "  createKeyButton( zoneId, \"" ++ get_key_label (zone : Int) ++ "\", row, col );"]) ∧
    (generate_keyboard_layout_code.split fun c => c == '\n').length = 36 ∧
    get_key_label 7 = "Space" ∧ get_key_label 10 = "Right Alt" ∧
    (∀ tbl : List (Int × String), (generate_code_lines_in tbl).length = 36) := by
  refine ⟨?_, ?_, by decide, by decide, fun tbl => rfl⟩ <;> (rw [String.split_of_valid]; decide)

/-- Claim C5: the Zone Table has exactly 126 entries, its keys are pairwise
distinct, and the key sequence is exactly 0, 1, ..., 125 with no gaps. -/
theorem c5_table_keys_exact :
    ZONE_TO_KEY.length = 126 ∧
    (ZONE_TO_KEY.map Prod.fst).Nodup ∧
    ZONE_TO_KEY.map Prod.fst = (List.range 126).map fun n => (n : Int) :=
  ⟨by decide, by decide, by decide⟩

/-- Claim C6: the number of entries whose label equals exactly
"Unused/Unknown" is the number the report's "Unused zones" line reports,
which counts entries whose label contains the substring "Unused". -/
theorem c6_unused_counts_agree :
    (ZONE_TO_KEY.countP fun p => p.2 == "Unused/Unknown") =
      (ZONE_TO_KEY.countP fun p => strContains p.2 "Unused") ∧
    report_lines.getLast? =
      some ("Unused zones: " ++
        toString (ZONE_TO_KEY.countP fun p => p.2 == "Unused/Unknown")) :=
  ⟨by decide, by decide⟩

/-- Claim C7: the report prints, in order, the two header lines, a blank
line, one line `"  Zone " + zone_id + ": " + label` per table entry in
ascending zone-id order, a blank line, the total entry count, and the count
of labels containing "Unused". -/
theorem c7_report_structure :
    report_lines =
      ["Tuxedo Keyboard Zone Mappings (German QWERTZ Layout):",
       "Note: Y and Z positions are swapped compared to US QWERTY",
       ""]
      ++ ZONE_TO_KEY.map (fun p => "  Zone " ++ toString p.1 ++ ": " ++ p.2)
      ++ ["", "Total mapped zones: 126", "Unused zones: 24"] ∧
    List.Pairwise (fun p q => p.1 < q.1) ZONE_TO_KEY :=
  ⟨by decide, by decide⟩

/-- Claim C8: two calls to `get_key_label` with the same zone id return
identical strings, two calls to `generate_keyboard_layout_code` return
identical strings, and neither call changes the Zone Table it reads. -/
theorem c8_calls_pure (z : Int) :
    (get_key_label_call ZONE_TO_KEY z).1 =
      (get_key_label_call (get_key_label_call ZONE_TO_KEY z).2 z).1 ∧
    (get_key_label_call ZONE_TO_KEY z).2 = ZONE_TO_KEY ∧
    (get_key_label_call ZONE_TO_KEY z).1 = get_key_label z ∧
    (generate_keyboard_layout_code_call ZONE_TO_KEY).1 =
      (generate_keyboard_layout_code_call
        (generate_keyboard_layout_code_call ZONE_TO_KEY).2).1 ∧
    (generate_keyboard_layout_code_call ZONE_TO_KEY).2 = ZONE_TO_KEY ∧
    (generate_keyboard_layout_code_call ZONE_TO_KEY).1 = generate_keyboard_layout_code :=
  ⟨rfl, rfl, rfl, rfl, rfl, rfl⟩

/-- Claim C9: for every zone below 18, the emitted pair of lines is the fixed
advance line and a creation-call line whose zone-id argument is the literal
identifier `zoneId`; the line never passes the zone's decimal number as that
argument, so pairs for different zones differ only in the quoted label. -/
theorem c9_zone_argument_is_identifier : ∀ z : Nat, z < 18 →
    generate_code_lines[2 * z]? = some "  zoneId = currentZone++;" ∧
    generate_code_lines[2 * z + 1]? =
      some ("  createKeyButton( zoneId, \"" ++ get_key_label (z : Int) ++ "\", row, col );") ∧
    strContains (generate_code_lines.getD (2 * z + 1) "")
      ("createKeyButton( " ++ toString z ++ ",") = false := by
  decide

/-- Witness for C9 at the concrete zone 0. -/
theorem c9_witness :
    0 < 18 ∧ generate_code_lines[0]? = some "  zoneId = currentZone++;" :=
  ⟨by decide, (c9_zone_argument_is_identifier 0 (by decide)).1⟩

/-- Claim C10: every zone of `[0, 18)` is a key of the Zone Table (so the
fallback branch of `get_key_label` is unreachable inside the generator), and
no emitted line embeds a synthesized quoted `"Zone N"` label. -/
theorem c10_no_fallback_emitted :
    (∀ z : Nat, z < 18 →
      (z : Int) ∈ ZONE_TO_KEY.map Prod.fst ∧
      (ZONE_TO_KEY.lookup (z : Int)).isSome = true) ∧
    (∀ line ∈ generate_code_lines, strContains line "\"Zone " = false) :=
  ⟨by decide, by decide⟩

/-- Witness for C10 at the concrete zone 0 and the first emitted line. -/
theorem c10_witness :
    ((0 : Int) ∈ ZONE_TO_KEY.map Prod.fst ∧
      (ZONE_TO_KEY.lookup (0 : Int)).isSome = true) ∧
    strContains "  zoneId = currentZone++;" "\"Zone " = false :=
  ⟨c10_no_fallback_emitted.1 0 (by decide),
   c10_no_fallback_emitted.2 "  zoneId = currentZone++;" (by decide)⟩

end KeyboardMappingUtil
